import Mathlib

/-!
Shallow embedding of the seelf orchestration core:
* the sqlite `appsStore` (CheckAppNamingAvailability, CheckAppNamingAvailabilityByID,
  GetByID, Write / its event-to-mutation mapping), and
* the deploy job handler (Prepare, Process).

Relational state is modelled as explicit lists of rows; machine strings are Lean
`String`s; fallible operations return `Except`.  Driver/IO level failures of the
sqlite engine are outside the model: a statement that executes is assumed to
execute successfully, which matches the spec's treatment of the relational
engine as an external collaborator.
-/

namespace Seelf

/-- App identifiers (`domain.AppID`, a string id). -/
abbrev AppID := String

/-- Target identifiers (`domain.TargetID`, a string id). -/
abbrev TargetID := String

/-- App names (`domain.AppName`). -/
abbrev AppName := String

/-- Timestamps, abstracted to naturals (only equality matters to the claims). -/
abbrev Time := Nat

/-- `domain.EnvironmentConfig`: the per-slot configuration, exposing
`Target()`, `Version()` and `Vars()` exactly as the store reads them. -/
structure EnvironmentConfig where
  target : TargetID
  version : String
  vars : Option String
deriving DecidableEq, Repr

/-- Modelled from the spec: `domain.EnvironmentConfigRequirement` (the domain
package is not under src/).  Per §3 it is "derived, not stored — pairs a
desired EnvironmentConfig with two booleans: target-exists, name-available";
`domain.NewEnvironmentConfigRequirement(config, targetFound, available)` is its
constructor and the zero value is the "nothing to check" result. -/
structure EnvironmentConfigRequirement where
  config : Option EnvironmentConfig
  targetFound : Bool
  available : Bool
deriving DecidableEq, Repr

/-- The Go zero value of `EnvironmentConfigRequirement` (named return values
left unassigned). -/
def EnvironmentConfigRequirement.zero : EnvironmentConfigRequirement :=
  { config := none, targetFound := false, available := false }

/-- `domain.NewEnvironmentConfigRequirement`: pairs the desired config with the
two booleans produced by the consistency query. -/
def NewEnvironmentConfigRequirement (config : EnvironmentConfig)
    (targetFound available : Bool) : EnvironmentConfigRequirement :=
  { config := some config, targetFound := targetFound, available := available }

/-- A row of the `apps` table (columns as listed by `GetByID`). -/
structure AppRow where
  id : AppID
  name : AppName
  version_control_url : Option String
  version_control_token : Option String
  production_target : TargetID
  production_version : String
  production_vars : Option String
  staging_target : TargetID
  staging_version : String
  staging_vars : Option String
  cleanup_requested_at : Option Time
  cleanup_requested_by : Option String
  created_at : Time
  created_by : String
deriving DecidableEq, Repr

/-- A row of the `targets` table, as far as the apps store reads it
(`SELECT 1 FROM targets WHERE id = ? AND cleanup_requested_at IS NULL`). -/
structure TargetRow where
  id : TargetID
  cleanup_requested_at : Option Time
deriving DecidableEq, Repr

/-- The relational state the apps store touches. -/
structure Database where
  apps : List AppRow
  targets : List TargetRow
deriving DecidableEq, Repr

/-- `EXISTS(SELECT 1 FROM targets WHERE id = ? AND cleanup_requested_at IS NULL)`. -/
def targetActiveExists (db : Database) (tid : TargetID) : Bool :=
  db.targets.any fun t => t.id == tid && t.cleanup_requested_at.isNone

/-- `EXISTS(SELECT 1 FROM apps WHERE name = ? AND production_target = ?)`. -/
def nameOnProductionExists (db : Database) (name : AppName) (tid : TargetID) : Bool :=
  db.apps.any fun a => a.name == name && a.production_target == tid

/-- `EXISTS(SELECT 1 FROM apps WHERE name = ? AND staging_target = ?)`. -/
def nameOnStagingExists (db : Database) (name : AppName) (tid : TargetID) : Bool :=
  db.apps.any fun a => a.name == name && a.staging_target == tid

/-- Errors surfaced by the store (the builder maps an empty `One` result to the
not-found error; other driver failures are outside the model). -/
inductive StoreError
  | notFound
deriving DecidableEq, Repr

/-- `appsStore.CheckAppNamingAvailability`: one query computes, per slot,
whether `name` is free on the slot's target and whether that target exists and
is not cleanup-pending; each pair is wrapped by `NewEnvironmentConfigRequirement`.
The `SELECT` has no `FROM`, so exactly one row is always produced and the call
cannot fail at the model's level of abstraction. -/
def CheckAppNamingAvailability (db : Database) (name : AppName)
    (production staging : EnvironmentConfig) :
    EnvironmentConfigRequirement × EnvironmentConfigRequirement :=
  (NewEnvironmentConfigRequirement production
      (targetActiveExists db production.target)
      (!nameOnProductionExists db name production.target),
    NewEnvironmentConfigRequirement staging
      (targetActiveExists db staging.target)
      (!nameOnStagingExists db name staging.target))

/-- The result of `appsStore.CheckAppNamingAvailabilityByID` together with the
number of round trips the call performed (the source builds at most one query). -/
structure ByIDResult where
  result : Except StoreError (EnvironmentConfigRequirement × EnvironmentConfigRequirement)
  queriesRun : Nat
deriving Repr

/-- `appsStore.CheckAppNamingAvailabilityByID`: when both maybe-configs are
absent it returns the zero-valued named returns without touching the database;
otherwise it runs one query `FROM apps src WHERE src.id = ?`, whose per-slot
clause (appended only for present slots) checks
`NOT EXISTS(... apps.id != src.id AND apps.name = src.name AND <slot>_target = ?)`
and the target-exists subquery; an absent slot keeps its zero requirement. -/
def CheckAppNamingAvailabilityByID (db : Database) (id : AppID)
    (production staging : Option EnvironmentConfig) : ByIDResult :=
  match production, staging with
  | none, none =>
    { result := .ok (.zero, .zero), queriesRun := 0 }
  | _, _ =>
    match db.apps.find? (fun a => a.id == id) with
    | none => { result := .error .notFound, queriesRun := 1 }
    | some src =>
      let productionRequirement :=
        match production with
        | some cfg =>
          NewEnvironmentConfigRequirement cfg
            (targetActiveExists db cfg.target)
            (!db.apps.any fun a =>
              a.id != src.id && a.name == src.name && a.production_target == cfg.target)
        | none => .zero
      let stagingRequirement :=
        match staging with
        | some cfg =>
          NewEnvironmentConfigRequirement cfg
            (targetActiveExists db cfg.target)
            (!db.apps.any fun a =>
              a.id != src.id && a.name == src.name && a.staging_target == cfg.target)
        | none => .zero
      { result := .ok (productionRequirement, stagingRequirement), queriesRun := 1 }

/-- `appsStore.GetByID`: `SELECT <all columns> FROM apps WHERE id = ?` through
`One`; an empty result is the not-found error.  `domain.AppFrom` rehydrates the
aggregate from exactly these columns, so the row itself stands for the App. -/
def GetByID (db : Database) (id : AppID) : Except StoreError AppRow :=
  match db.apps.find? (fun a => a.id == id) with
  | some a => .ok a
  | none => .error .notFound

/-- Modelled from the spec: `domain.Environment` (the domain package is not
under src/).  Per §4.1/§9 the environment tag is "a closed, code-controlled
enumeration {production, staging} — never from untrusted input". -/
inductive Environment
  | production
  | staging
deriving DecidableEq, Repr

/-- `string(evt.Environment)`: the column-name prefix interpolated by the
`AppEnvChanged` arm of `Write`. -/
def environmentColumnPrefix : Environment → String
  | .production => "production"
  | .staging => "staging"

/-- The audit pair carried by `Created`/`CleanupRequested` events
(`evt.Created.At()/.By()`, `evt.Requested.At()/.By()`). -/
structure ActionAudit where
  at_ : Time
  by_ : String
deriving DecidableEq, Repr

/-- The event variants the aggregate writer's type switch knows, plus a
representative for every variant unknown to it (`default:` arm); the tag of
`unknown` ranges over the open world of other event types (e.g.
`DeploymentCreated`). -/
inductive Event
  | appCreated (id : AppID) (name : AppName)
      (production staging : EnvironmentConfig) (created : ActionAudit)
  | appEnvChanged (id : AppID) (environment : Environment) (config : EnvironmentConfig)
  | appVersionControlConfigured (id : AppID) (url token : String)
  | appVersionControlRemoved (id : AppID)
  | appCleanupRequested (id : AppID) (requested : ActionAudit)
  | appDeleted (id : AppID)
  | unknown (tag : String)
deriving DecidableEq, Repr

/-- The `AppEnvChanged` mutation on one row: `UPDATE apps SET
<env>_target = ?, <env>_version = ?, <env>_vars = ?` — the three columns whose
names are `environmentColumnPrefix` + suffix. -/
def updateEnvRow (environment : Environment) (config : EnvironmentConfig)
    (r : AppRow) : AppRow :=
  match environment with
  | .production =>
    { r with
      production_target := config.target
      production_version := config.version
      production_vars := config.vars }
  | .staging =>
    { r with
      staging_target := config.target
      staging_version := config.version
      staging_vars := config.vars }

/-- Errors of a single relational mutation inside `Write`.  Every arm of the
source's type switch either executes one statement (driver failures are outside
the model) or is the `default: return nil` no-op, so no modelled arm fails; the
type records that each arm returns an `error` to `WriteAndDispatch`. -/
inductive WriteError
deriving DecidableEq, Repr

/-- The row inserted by the `AppCreated` arm of `Write` (`builder.Insert("apps",
builder.Values{...})`; columns not listed in the insert are NULL). -/
def newAppRow (id : AppID) (name : AppName)
    (production staging : EnvironmentConfig) (created : ActionAudit) : AppRow :=
  { id := id
    name := name
    version_control_url := none
    version_control_token := none
    production_target := production.target
    production_version := production.version
    production_vars := production.vars
    staging_target := staging.target
    staging_version := staging.version
    staging_vars := staging.vars
    cleanup_requested_at := none
    cleanup_requested_by := none
    created_at := created.at_
    created_by := created.by_ }

/-- The body of the type switch inside `appsStore.Write`: the single relational
mutation selected by the event's variant.  `INSERT` appends a row (absent
columns are NULL), `UPDATE ... WHERE id = ?` rewrites every row whose id
matches, `DELETE FROM apps WHERE id = ?` drops them, and an unknown variant
leaves the state untouched and returns no error. -/
def applyEvent (db : Database) : Event → Except WriteError Database
  | .appCreated id name production staging created =>
    .ok { db with apps := db.apps ++ [newAppRow id name production staging created] }
  | .appEnvChanged id environment config =>
    .ok { db with
      apps := db.apps.map fun r =>
        if r.id == id then updateEnvRow environment config r else r }
  | .appVersionControlConfigured id url token =>
    .ok { db with
      apps := db.apps.map fun r =>
        if r.id == id then
          { r with
            version_control_url := some url
            version_control_token := some token }
        else r }
  | .appVersionControlRemoved id =>
    .ok { db with
      apps := db.apps.map fun r =>
        if r.id == id then
          { r with
            version_control_url := none
            version_control_token := none }
        else r }
  | .appCleanupRequested id requested =>
    .ok { db with
      apps := db.apps.map fun r =>
        if r.id == id then
          { r with
            cleanup_requested_at := some requested.at_
            cleanup_requested_by := some requested.by_ }
        else r }
  | .appDeleted id =>
    .ok { db with apps := db.apps.filter fun r => !(r.id == id) }
  | .unknown _ => .ok db

/-- `appsStore.Write` over the pending events of one aggregate, in emission
order, inside one transaction: the fold aborts at the first failing mutation
(`Except` short-circuits exactly as the transaction does). -/
def Write (db : Database) (events : List Event) : Except WriteError Database :=
  events.foldlM applyEvent db

/-! ### The deploy job handler (`internal/worker/infra/jobs/deploy/handler.go`) -/

/-- Decimal digit characters, as rendered by Go's `%d` verb. -/
def digitChar (n : Nat) : Char :=
  if n = 0 then '0' else if n = 1 then '1' else if n = 2 then '2'
  else if n = 3 then '3' else if n = 4 then '4' else if n = 5 then '5'
  else if n = 6 then '6' else if n = 7 then '7' else if n = 8 then '8'
  else if n = 9 then '9' else '*'

/-- Decimal rendering of a natural number, most significant digit first: the
textual form `%d` gives a (non-negative) deployment number. -/
def natDecimal (n : Nat) : List Char :=
  if _h : n < 10 then [digitChar n]
  else natDecimal (n / 10) ++ [digitChar (n % 10)]
decreasing_by
  exact Nat.div_lt_self (by omega) (by omega)

/-- The deploy job `Data` (its concrete file is not under src/; its two fields
are fixed by `Prepare`'s construction `Data{evt.ID.AppID(),
evt.ID.DeploymentNumber()}` and by `Process`'s reads `data.AppID`,
`data.DeploymentNumber`).  Deployment numbers are 1-based counters, modelled as
naturals. -/
structure Data where
  appID : AppID
  deploymentNumber : Nat
deriving DecidableEq, Repr

/-- Modelled from the spec: `Data.Discriminator()` (not under src/).  Per §4.3
the dedupe key is "composed from a stable discriminator of the job kind, the
domain identifier the job acts on, and any disambiguating context"; the
context (the project name) is appended by `Prepare` itself, so the
discriminator contributes the stable job-kind tag and the domain identifier
(app id and deployment number). -/
def Data.discriminator (d : Data) : String :=
  "deploy." ++ d.appID ++ "." ++ String.mk (natDecimal d.deploymentNumber)

/-- `Request` (= `depldomain.DeploymentCreated`) as read by `Prepare`:
`evt.ID.AppID()`, `evt.ID.DeploymentNumber()` and `evt.Config.ProjectName()`. -/
structure Request where
  appID : AppID
  deploymentNumber : Nat
  projectName : String
deriving DecidableEq, Repr

/-- The typed payloads relevant to the handler: either its own `Request`
shape or any other runtime type (the failed type assertion's world). -/
inductive Payload
  | request (r : Request)
  | other (tag : String)
deriving DecidableEq, Repr

/-- The stored `domain.JobData` of a job: either the deploy handler's `Data`
shape or any other stored shape. -/
inductive JobData
  | deploy (d : Data)
  | other (tag : String)
deriving DecidableEq, Repr

/-- `domain.Job`, as far as `Process` reads it: `job.Data()`. -/
structure Job where
  data : JobData
deriving DecidableEq, Repr

/-- The handler-level error values (`domain.ErrInvalidPayload`). -/
inductive HandlerError
  | invalidPayload
deriving DecidableEq, Repr

/-- `handler.Prepare`: a failed type assertion returns the invalid-payload
error; otherwise it builds `Data` from the event id and the dedupe name
`fmt.Sprintf("%s.%s", data.Discriminator(), evt.Config.ProjectName())`. -/
def Prepare (payload : Payload) :
    Except HandlerError (JobData × Option String) :=
  match payload with
  | .other _ => .error .invalidPayload
  | .request evt =>
    let data : Data := { appID := evt.appID, deploymentNumber := evt.deploymentNumber }
    .ok (.deploy data, some (data.discriminator ++ "." ++ evt.projectName))

/-- The dedupe key `Prepare` returns for a well-typed `Request`. -/
def dedupeKey (evt : Request) : String :=
  Data.discriminator { appID := evt.appID, deploymentNumber := evt.deploymentNumber }
    ++ "." ++ evt.projectName

/-- `deplcmd.DeployCommand`, as built by `Process`. -/
structure DeployCommand where
  appID : String
  deploymentNumber : Nat
deriving DecidableEq, Repr

/-- The outcome of the injected `deploy` use case: success, a business/domain
rejection already recorded on the Deployment, or a persistence-layer (sql)
error. -/
inductive DeployOutcome
  | success
  | domainFailure (msg : String)
  | infraFailure (msg : String)
deriving DecidableEq, Repr

/-- What a `Process` call did: the Go `error` it returned (`none` = `nil`),
the deploy commands it invoked, and how many error-level log lines it wrote. -/
structure ProcessResult where
  returned : Option HandlerError
  deployCalls : List DeployCommand
  errorLogs : Nat
deriving DecidableEq, Repr

/-- `handler.Process`: a failed type assertion on `job.Data()` returns the
invalid-payload error before anything else runs; otherwise the deploy command
is invoked and — as the source is written — any error it returns is logged via
`logger.Errorw` and `Process` returns `nil`. -/
def Process (deploy : DeployCommand → DeployOutcome) (job : Job) : ProcessResult :=
  match job.data with
  | .other _ =>
    { returned := some .invalidPayload, deployCalls := [], errorLogs := 0 }
  | .deploy data =>
    let cmd : DeployCommand :=
      { appID := data.appID, deploymentNumber := data.deploymentNumber }
    match deploy cmd with
    | .success => { returned := none, deployCalls := [cmd], errorLogs := 0 }
    | .domainFailure _ => { returned := none, deployCalls := [cmd], errorLogs := 1 }
    | .infraFailure _ => { returned := none, deployCalls := [cmd], errorLogs := 1 }

/-! ### Auxiliary lemmas about the decimal rendering -/

theorem digitChar_inj_fin : ∀ a b : Fin 10,
    digitChar a.val = digitChar b.val → a = b := by decide

theorem digitChar_inj_lt {a b : Nat} (ha : a < 10) (hb : b < 10)
    (h : digitChar a = digitChar b) : a = b := by
  have := digitChar_inj_fin ⟨a, ha⟩ ⟨b, hb⟩ h
  exact congrArg Fin.val this

theorem natDecimal_small {n : Nat} (h : n < 10) : natDecimal n = [digitChar n] := by
  rw [natDecimal]
  simp [h]

theorem natDecimal_large {n : Nat} (h : ¬n < 10) :
    natDecimal n = natDecimal (n / 10) ++ [digitChar (n % 10)] := by
  conv_lhs => rw [natDecimal]
  simp [h]

theorem natDecimal_ne_nil (n : Nat) : natDecimal n ≠ [] := by
  by_cases h : n < 10
  · rw [natDecimal_small h]
    simp
  · rw [natDecimal_large h]
    simp

theorem natDecimal_inj : ∀ m n : Nat, natDecimal m = natDecimal n → m = n := by
  intro m
  induction m using Nat.strong_induction_on with
  | _ m ih =>
    intro n h
    by_cases hm : m < 10 <;> by_cases hn : n < 10
    · rw [natDecimal_small hm, natDecimal_small hn] at h
      simp only [List.cons.injEq, and_true] at h
      exact digitChar_inj_lt hm hn h
    · rw [natDecimal_small hm, natDecimal_large hn] at h
      have hlen := congrArg List.length h
      simp only [List.length_cons, List.length_append, List.length_nil] at hlen
      exact absurd (List.length_eq_zero.mp (by omega)) (natDecimal_ne_nil (n / 10))
    · rw [natDecimal_large hm, natDecimal_small hn] at h
      have hlen := congrArg List.length h
      simp only [List.length_cons, List.length_append, List.length_nil] at hlen
      exact absurd (List.length_eq_zero.mp (by omega)) (natDecimal_ne_nil (m / 10))
    · rw [natDecimal_large hm, natDecimal_large hn] at h
      have hparts := List.append_inj' h (by simp)
      have hdiv : m / 10 = n / 10 :=
        ih (m / 10) (Nat.div_lt_self (by omega) (by omega)) (n / 10) hparts.1
      have hmod : m % 10 = n % 10 := by
        have hc := hparts.2
        simp only [List.cons.injEq, and_true] at hc
        exact digitChar_inj_lt (Nat.mod_lt _ (by omega)) (Nat.mod_lt _ (by omega)) hc
      have h1 := Nat.div_add_mod m 10
      have h2 := Nat.div_add_mod n 10
      omega

/-- The dedupe key, decomposed into its character-list components. -/
theorem dedupeKey_data (r : Request) :
    (dedupeKey r).data =
      "deploy.".data ++ (r.appID.data ++ (".".data ++ (natDecimal r.deploymentNumber
        ++ (".".data ++ r.projectName.data)))) := by
  simp [dedupeKey, Data.discriminator, String.data_append, List.append_assoc]

/-! ### Claim theorems -/

/-- C10: `CheckAppNamingAvailabilityByID` called with both the production and
the staging config absent performs no database query at all and returns two
zero-value requirements and a nil error, for every database state and every app
id; the function reads nothing and writes nothing, so the store is untouched. -/
theorem checkByID_absent_configs_is_pure_zero (db : Database) (id : AppID) :
    CheckAppNamingAvailabilityByID db id none none =
      { result := .ok (.zero, .zero), queriesRun := 0 } := rfl

/-- C7: for every event variant unknown to the aggregate writer's type switch,
the `Write` mapping performs no relational mutation and returns no error: the
event's arm leaves the database unchanged and succeeds, and dropping the event
from any batch leaves `Write`'s outcome unchanged. -/
theorem write_ignores_unknown_event_variants (db : Database) (tag : String)
    (events : List Event) :
    applyEvent db (.unknown tag) = .ok db
    ∧ Write db (.unknown tag :: events) = Write db events := by
  exact ⟨rfl, rfl⟩

/-- C2 (divergence evidence): with well-typed `Data`, when the injected deploy
command reports a persistence-layer (sql) failure, `Process` logs it and still
returns `nil` instead of propagating it — the source's
`if err := h.deploy(...); err != nil { h.logger.Errorw(...) }; return nil`
swallows every error, contradicting its own comment "The only exception is for
sql errors" and the spec's "Only failures originating from the
persistence/transport layer itself must be returned". -/
theorem process_swallows_infra_failure :
    Process (fun _ => .infraFailure "sql: database is locked")
        { data := .deploy { appID := "app-1", deploymentNumber := 1 } } =
      { returned := none
        deployCalls := [{ appID := "app-1", deploymentNumber := 1 }]
        errorLogs := 1 } := rfl

/-- C3: for every job whose stored `Data` is not the deploy handler's expected
shape, `Process` returns the invalid-payload error immediately, invokes no
deploy command and logs nothing, whatever the injected deploy use case would
do. -/
theorem process_rejects_mistyped_data
    (deploy : DeployCommand → DeployOutcome) (job : Job)
    (h : ∀ d : Data, job.data ≠ .deploy d) :
    Process deploy job =
      { returned := some .invalidPayload, deployCalls := [], errorLogs := 0 } := by
  match hd : job.data with
  | .deploy d => exact absurd hd (h d)
  | .other tag => simp [Process, hd]

theorem process_rejects_mistyped_data_witness :
    (∀ d : Data, (Job.mk (.other "appcleanup.Data")).data ≠ .deploy d)
    ∧ Process (fun _ => .success) (Job.mk (.other "appcleanup.Data")) =
        { returned := some .invalidPayload, deployCalls := [], errorLogs := 0 } :=
  ⟨fun d => by simp,
    process_rejects_mistyped_data (fun _ => .success)
      (Job.mk (.other "appcleanup.Data")) (fun d => by simp)⟩

/-- C9: after `Write` persists an `AppDeleted` event for an id, no row with
that id remains and a subsequent `GetByID` with that id fails with the
not-found error. -/
theorem deleted_app_unfindable (db db' : Database) (id : AppID)
    (h : Write db [.appDeleted id] = .ok db') :
    (∀ r ∈ db'.apps, r.id ≠ id) ∧ GetByID db' id = .error .notFound := by
  have hdb : db' = { db with apps := db.apps.filter fun r => !(r.id == id) } := by
    simpa [Write, List.foldlM, applyEvent] using h.symm
  subst hdb
  constructor
  · intro r hr
    have := List.of_mem_filter hr
    simpa using this
  · rw [GetByID]
    have hfind : (List.filter (fun r => !(r.id == id)) db.apps).find?
        (fun a => a.id == id) = none := by
      rw [List.find?_eq_none]
      intro a ha
      have := List.of_mem_filter ha
      simpa using this
    simp [hfind]

theorem targetActiveExists_false_of_pending (db : Database) (tid : TargetID)
    (hpend : ∀ t ∈ db.targets, t.id = tid → t.cleanup_requested_at.isSome) :
    targetActiveExists db tid = false := by
  rw [targetActiveExists, List.any_eq_false]
  intro t ht
  by_cases hid : t.id = tid
  · have hsome := hpend t ht hid
    cases hx : t.cleanup_requested_at with
    | none => rw [hx] at hsome; simp at hsome
    | some v => simp [hid, hx]
  · simp [hid]

/-- C5: a target whose `targets` row is cleanup-pending (non-null
`cleanup_requested_at`) is reported target-exists = false for the slot bound to
it by both consistency-checker entry points, regardless of the name-available
half of the result. -/
theorem cleanup_pending_target_never_exists
    (db : Database) (tid : TargetID)
    (hpend : ∀ t ∈ db.targets, t.id = tid → t.cleanup_requested_at.isSome)
    (n : AppName) (pcfg ocfg : EnvironmentConfig) (hp : pcfg.target = tid)
    (id : AppID) :
    ((CheckAppNamingAvailability db n pcfg ocfg).1.targetFound = false)
    ∧ ((CheckAppNamingAvailability db n ocfg pcfg).2.targetFound = false)
    ∧ (∀ st preq sreq,
        (CheckAppNamingAvailabilityByID db id (some pcfg) st).result = .ok (preq, sreq) →
        preq.targetFound = false)
    ∧ (∀ pt preq sreq,
        (CheckAppNamingAvailabilityByID db id pt (some pcfg)).result = .ok (preq, sreq) →
        sreq.targetFound = false) := by
  have hta : targetActiveExists db tid = false :=
    targetActiveExists_false_of_pending db tid hpend
  refine ⟨?_, ?_, ?_, ?_⟩
  · simp [CheckAppNamingAvailability, NewEnvironmentConfigRequirement, hp, hta]
  · simp [CheckAppNamingAvailability, NewEnvironmentConfigRequirement, hp, hta]
  · intro st preq sreq hres
    cases st <;> cases hf : db.apps.find? (fun a => a.id == id) <;>
      simp [CheckAppNamingAvailabilityByID, hf, NewEnvironmentConfigRequirement] at hres <;>
      simp [← hres.1, NewEnvironmentConfigRequirement, hp, hta]
  · intro pt preq sreq hres
    cases pt <;> cases hf : db.apps.find? (fun a => a.id == id) <;>
      simp [CheckAppNamingAvailabilityByID, hf, NewEnvironmentConfigRequirement] at hres <;>
      simp [← hres.2, NewEnvironmentConfigRequirement, hp, hta]

theorem cleanup_pending_target_never_exists_witness :
    (∀ t ∈ (Database.mk
        [⟨"a1", "n", none, none, "t1", "v", none, "t1", "v", none, none, none, 0, "u"⟩]
        [⟨"t1", some 7⟩]).targets, t.id = "t1" → t.cleanup_requested_at.isSome)
    ∧ (((CheckAppNamingAvailability
          (Database.mk
            [⟨"a1", "n", none, none, "t1", "v", none, "t1", "v", none, none, none, 0, "u"⟩]
            [⟨"t1", some 7⟩]) "n" ⟨"t1", "v", none⟩ ⟨"t2", "v", none⟩).1.targetFound = false)
        ∧ ((CheckAppNamingAvailability
          (Database.mk
            [⟨"a1", "n", none, none, "t1", "v", none, "t1", "v", none, none, none, 0, "u"⟩]
            [⟨"t1", some 7⟩]) "n" ⟨"t2", "v", none⟩ ⟨"t1", "v", none⟩).2.targetFound = false)
        ∧ (∀ st preq sreq,
            (CheckAppNamingAvailabilityByID
              (Database.mk
                [⟨"a1", "n", none, none, "t1", "v", none, "t1", "v", none, none, none, 0, "u"⟩]
                [⟨"t1", some 7⟩]) "a1" (some ⟨"t1", "v", none⟩) st).result = .ok (preq, sreq) →
            preq.targetFound = false)
        ∧ (∀ pt preq sreq,
            (CheckAppNamingAvailabilityByID
              (Database.mk
                [⟨"a1", "n", none, none, "t1", "v", none, "t1", "v", none, none, none, 0, "u"⟩]
                [⟨"t1", some 7⟩]) "a1" pt (some ⟨"t1", "v", none⟩)).result = .ok (preq, sreq) →
            sreq.targetFound = false)) :=
  ⟨by decide,
    cleanup_pending_target_never_exists
      (Database.mk
        [⟨"a1", "n", none, none, "t1", "v", none, "t1", "v", none, none, none, 0, "u"⟩]
        [⟨"t1", some 7⟩]) "t1" (by decide) "n" ⟨"t1", "v", none⟩ ⟨"t2", "v", none⟩ rfl "a1"⟩

/-- C4 counterexample: the claim quantifies over every database state, but in a
state where a second app (a different id) binds the same name to the same
target, an app that keeps its current name and production target re-validates
through `CheckAppNamingAvailabilityByID` and is reported name-available =
false, not true. -/
theorem checkByID_self_check_not_always_available :
    (CheckAppNamingAvailabilityByID
        { apps := [⟨"a1", "n", none, none, "t1", "v", none, "t2", "v", none, none, none, 0, "u"⟩,
                   ⟨"b1", "n", none, none, "t1", "v", none, "t2", "v", none, none, none, 0, "u"⟩],
          targets := [⟨"t1", none⟩, ⟨"t2", none⟩] }
        "a1" (some ⟨"t1", "v", none⟩) none).result =
      .ok ({ config := some ⟨"t1", "v", none⟩, targetFound := true, available := false },
        .zero) := rfl

/-- C4 (amended): `CheckAppNamingAvailabilityByID`'s uniqueness subquery
excludes the app's own row (`apps.id != src.id`), so in any state where no
*other* app row binds the app's name to the checked slot target — in
particular any state satisfying invariant I1 — an app keeping its current name
and targets re-validates as name-available = true for both slots. -/
theorem checkByID_excludes_own_row
    (db : Database) (id : AppID) (src : AppRow) (pcfg scfg : EnvironmentConfig)
    (hfind : db.apps.find? (fun a => a.id == id) = some src)
    (_hp : pcfg.target = src.production_target)
    (_hs : scfg.target = src.staging_target)
    (hpuniq : ∀ a ∈ db.apps, a.id ≠ src.id →
      ¬(a.name = src.name ∧ a.production_target = pcfg.target))
    (hsuniq : ∀ a ∈ db.apps, a.id ≠ src.id →
      ¬(a.name = src.name ∧ a.staging_target = scfg.target)) :
    (CheckAppNamingAvailabilityByID db id (some pcfg) (some scfg)).result =
      .ok (NewEnvironmentConfigRequirement pcfg (targetActiveExists db pcfg.target) true,
        NewEnvironmentConfigRequirement scfg (targetActiveExists db scfg.target) true) := by
  have hpav : (db.apps.any fun a =>
      a.id != src.id && a.name == src.name && a.production_target == pcfg.target) = false := by
    rw [List.any_eq_false]
    intro a ha
    by_cases haid : a.id = src.id
    · simp [haid]
    · by_cases hname : a.name = src.name
      · have htgt : a.production_target ≠ pcfg.target := fun hc =>
          hpuniq a ha haid ⟨hname, hc⟩
        simp [hname, htgt]
      · simp [hname]
  have hsav : (db.apps.any fun a =>
      a.id != src.id && a.name == src.name && a.staging_target == scfg.target) = false := by
    rw [List.any_eq_false]
    intro a ha
    by_cases haid : a.id = src.id
    · simp [haid]
    · by_cases hname : a.name = src.name
      · have htgt : a.staging_target ≠ scfg.target := fun hc =>
          hsuniq a ha haid ⟨hname, hc⟩
        simp [hname, htgt]
      · simp [hname]
  simp [CheckAppNamingAvailabilityByID, hfind, hpav, hsav]

theorem checkByID_excludes_own_row_witness :
    ((Database.mk
        [⟨"a1", "n", none, none, "t1", "v", none, "t2", "v", none, none, none, 0, "u"⟩]
        [⟨"t1", none⟩, ⟨"t2", none⟩]).apps.find? (fun a => a.id == "a1") =
      some ⟨"a1", "n", none, none, "t1", "v", none, "t2", "v", none, none, none, 0, "u"⟩)
    ∧ ((CheckAppNamingAvailabilityByID
        (Database.mk
          [⟨"a1", "n", none, none, "t1", "v", none, "t2", "v", none, none, none, 0, "u"⟩]
          [⟨"t1", none⟩, ⟨"t2", none⟩])
        "a1" (some ⟨"t1", "v", none⟩) (some ⟨"t2", "v", none⟩)).result =
      .ok (NewEnvironmentConfigRequirement ⟨"t1", "v", none⟩
            (targetActiveExists
              (Database.mk
                [⟨"a1", "n", none, none, "t1", "v", none, "t2", "v", none, none, none, 0, "u"⟩]
                [⟨"t1", none⟩, ⟨"t2", none⟩]) "t1") true,
        NewEnvironmentConfigRequirement ⟨"t2", "v", none⟩
            (targetActiveExists
              (Database.mk
                [⟨"a1", "n", none, none, "t1", "v", none, "t2", "v", none, none, none, 0, "u"⟩]
                [⟨"t1", none⟩, ⟨"t2", none⟩]) "t2") true)) :=
  ⟨by decide,
    checkByID_excludes_own_row
      (Database.mk
        [⟨"a1", "n", none, none, "t1", "v", none, "t2", "v", none, none, none, 0, "u"⟩]
        [⟨"t1", none⟩, ⟨"t2", none⟩])
      "a1" ⟨"a1", "n", none, none, "t1", "v", none, "t2", "v", none, none, none, 0, "u"⟩
      ⟨"t1", "v", none⟩ ⟨"t2", "v", none⟩ (by decide) rfl rfl
      (by decide) (by decide)⟩

theorem deleted_app_unfindable_witness :
    (Write
        { apps := [⟨"a1", "n1", none, none, "t1", "v1", none, "t1", "v1", none,
            none, none, 0, "u1"⟩],
          targets := [] }
        [.appDeleted "a1"] =
      .ok { apps := [], targets := [] })
    ∧ ((∀ r ∈ (Database.mk [] []).apps, r.id ≠ "a1")
        ∧ GetByID { apps := [], targets := [] } "a1" = .error .notFound) :=
  ⟨rfl,
    deleted_app_unfindable
      { apps := [⟨"a1", "n1", none, none, "t1", "v1", none, "t1", "v1", none,
          none, none, 0, "u1"⟩],
        targets := [] }
      { apps := [], targets := [] } "a1" rfl⟩

/-- C6: after `Write` persists an `AppCreated` event binding `name` to the
production target (and to the staging target) of the new row,
`CheckAppNamingAvailability` for the same (name, target) pair reports
name-available = false on that slot; for the same name on a different,
existing, not-cleanup-pending target carrying no such binding it reports
name-available = true (and target-exists = true). -/
theorem created_binding_blocks_same_pair
    (db db' : Database) (id : AppID) (n : AppName)
    (pcfg scfg : EnvironmentConfig) (created : ActionAudit)
    (h : Write db [.appCreated id n pcfg scfg created] = .ok db')
    (qp qs q' : EnvironmentConfig)
    (hqp : qp.target = pcfg.target) (hqs : qs.target = scfg.target)
    (t' : TargetID) (hq' : q'.target = t') (hne : t' ≠ pcfg.target)
    (hfree : ∀ a ∈ db.apps, ¬(a.name = n ∧ a.production_target = t'))
    (hex : targetActiveExists db t' = true) :
    ((CheckAppNamingAvailability db' n qp qs).1.available = false)
    ∧ ((CheckAppNamingAvailability db' n qp qs).2.available = false)
    ∧ ((CheckAppNamingAvailability db' n q' qs).1.available = true)
    ∧ ((CheckAppNamingAvailability db' n q' qs).1.targetFound = true) := by
  have hdb : db' = { db with
      apps := db.apps ++ [newAppRow id n pcfg scfg created] } := by
    simpa [Write, List.foldlM, applyEvent] using h.symm
  subst hdb
  refine ⟨?_, ?_, ?_, ?_⟩
  · simp [CheckAppNamingAvailability, NewEnvironmentConfigRequirement,
      nameOnProductionExists, newAppRow, List.any_append, hqp]
  · simp [CheckAppNamingAvailability, NewEnvironmentConfigRequirement,
      nameOnStagingExists, newAppRow, List.any_append, hqs]
  · have hany : ((db.apps ++ [newAppRow id n pcfg scfg created]).any fun a =>
        a.name == n && a.production_target == q'.target) = false := by
      rw [List.any_eq_false]
      intro a ha
      rcases List.mem_append.mp ha with hmem | hmem
      · by_cases hname : a.name = n
        · have htgt : a.production_target ≠ q'.target := fun hc =>
            hfree a hmem ⟨hname, hq' ▸ hc⟩
          simp [hname, htgt]
        · simp [hname]
      · have ha' : a.production_target = pcfg.target := by
          simp at hmem
          rw [hmem, newAppRow]
        have : a.production_target ≠ q'.target := by
          rw [ha', hq']
          exact fun hc => hne hc.symm
        simp [this]
    simp [CheckAppNamingAvailability, NewEnvironmentConfigRequirement,
      nameOnProductionExists, hany]
  · simp only [CheckAppNamingAvailability, NewEnvironmentConfigRequirement]
    rw [hq']
    exact hex

theorem created_binding_blocks_same_pair_witness :
    (Write (Database.mk [] [⟨"t1", none⟩, ⟨"t2", none⟩])
        [.appCreated "a1" "n1" ⟨"t1", "v", none⟩ ⟨"t1", "v", none⟩ ⟨0, "u"⟩] =
      .ok (Database.mk
        [⟨"a1", "n1", none, none, "t1", "v", none, "t1", "v", none, none, none, 0, "u"⟩]
        [⟨"t1", none⟩, ⟨"t2", none⟩]))
    ∧ (((CheckAppNamingAvailability
          (Database.mk
            [⟨"a1", "n1", none, none, "t1", "v", none, "t1", "v", none, none, none, 0, "u"⟩]
            [⟨"t1", none⟩, ⟨"t2", none⟩])
          "n1" ⟨"t1", "v", none⟩ ⟨"t1", "v", none⟩).1.available = false)
        ∧ ((CheckAppNamingAvailability
          (Database.mk
            [⟨"a1", "n1", none, none, "t1", "v", none, "t1", "v", none, none, none, 0, "u"⟩]
            [⟨"t1", none⟩, ⟨"t2", none⟩])
          "n1" ⟨"t1", "v", none⟩ ⟨"t1", "v", none⟩).2.available = false)
        ∧ ((CheckAppNamingAvailability
          (Database.mk
            [⟨"a1", "n1", none, none, "t1", "v", none, "t1", "v", none, none, none, 0, "u"⟩]
            [⟨"t1", none⟩, ⟨"t2", none⟩])
          "n1" ⟨"t2", "v", none⟩ ⟨"t1", "v", none⟩).1.available = true)
        ∧ ((CheckAppNamingAvailability
          (Database.mk
            [⟨"a1", "n1", none, none, "t1", "v", none, "t1", "v", none, none, none, 0, "u"⟩]
            [⟨"t1", none⟩, ⟨"t2", none⟩])
          "n1" ⟨"t2", "v", none⟩ ⟨"t1", "v", none⟩).1.targetFound = true)) :=
  ⟨rfl,
    created_binding_blocks_same_pair
      (Database.mk [] [⟨"t1", none⟩, ⟨"t2", none⟩])
      (Database.mk
        [⟨"a1", "n1", none, none, "t1", "v", none, "t1", "v", none, none, none, 0, "u"⟩]
        [⟨"t1", none⟩, ⟨"t2", none⟩])
      "a1" "n1" ⟨"t1", "v", none⟩ ⟨"t1", "v", none⟩ ⟨0, "u"⟩ rfl
      ⟨"t1", "v", none⟩ ⟨"t1", "v", none⟩ ⟨"t2", "v", none⟩ rfl rfl
      "t2" rfl (by decide) (by decide) rfl⟩

/-- C8: an `AppEnvChanged` event updates, in every row whose id matches the
event's app id, exactly the three columns of the named environment slot
(`<env>_target`, `<env>_version`, `<env>_vars`), leaves every other column and
every other row as well as the `targets` table unchanged, and the interpolated
column-name prefix ranges only over the closed enumeration
{"production", "staging"} determined by the event's environment tag. -/
theorem envChanged_updates_exactly_env_columns
    (db db' : Database) (id : AppID) (env : Environment) (cfg : EnvironmentConfig)
    (h : Write db [.appEnvChanged id env cfg] = .ok db') :
    db'.targets = db.targets
    ∧ db'.apps = db.apps.map (fun r => if r.id == id then updateEnvRow env cfg r else r)
    ∧ (∀ r : AppRow, (updateEnvRow env cfg r).id = r.id
        ∧ (updateEnvRow env cfg r).name = r.name
        ∧ (updateEnvRow env cfg r).version_control_url = r.version_control_url
        ∧ (updateEnvRow env cfg r).version_control_token = r.version_control_token
        ∧ (updateEnvRow env cfg r).cleanup_requested_at = r.cleanup_requested_at
        ∧ (updateEnvRow env cfg r).cleanup_requested_by = r.cleanup_requested_by
        ∧ (updateEnvRow env cfg r).created_at = r.created_at
        ∧ (updateEnvRow env cfg r).created_by = r.created_by)
    ∧ (env = .production → ∀ r : AppRow,
        (updateEnvRow env cfg r).production_target = cfg.target
        ∧ (updateEnvRow env cfg r).production_version = cfg.version
        ∧ (updateEnvRow env cfg r).production_vars = cfg.vars
        ∧ (updateEnvRow env cfg r).staging_target = r.staging_target
        ∧ (updateEnvRow env cfg r).staging_version = r.staging_version
        ∧ (updateEnvRow env cfg r).staging_vars = r.staging_vars)
    ∧ (env = .staging → ∀ r : AppRow,
        (updateEnvRow env cfg r).staging_target = cfg.target
        ∧ (updateEnvRow env cfg r).staging_version = cfg.version
        ∧ (updateEnvRow env cfg r).staging_vars = cfg.vars
        ∧ (updateEnvRow env cfg r).production_target = r.production_target
        ∧ (updateEnvRow env cfg r).production_version = r.production_version
        ∧ (updateEnvRow env cfg r).production_vars = r.production_vars)
    ∧ (environmentColumnPrefix env = "production"
        ∨ environmentColumnPrefix env = "staging") := by
  have hdb : db' = { db with
      apps := db.apps.map fun r => if r.id == id then updateEnvRow env cfg r else r } := by
    simpa [Write, List.foldlM, applyEvent] using h.symm
  subst hdb
  refine ⟨rfl, rfl, ?_, ?_, ?_, ?_⟩
  · intro r
    cases env <;> simp [updateEnvRow]
  · rintro rfl r
    simp [updateEnvRow]
  · rintro rfl r
    simp [updateEnvRow]
  · cases env
    · exact Or.inl rfl
    · exact Or.inr rfl

theorem envChanged_updates_exactly_env_columns_witness :
    (Write
        (Database.mk
          [⟨"a1", "n1", none, none, "t1", "v1", none, "t1", "v1", none, none, none, 0, "u"⟩]
          [⟨"t1", none⟩])
        [.appEnvChanged "a1" .production ⟨"t2", "v2", some "K=1"⟩] =
      .ok (Database.mk
        [⟨"a1", "n1", none, none, "t2", "v2", some "K=1", "t1", "v1", none, none, none, 0, "u"⟩]
        [⟨"t1", none⟩]))
    ∧ ((Database.mk
          [⟨"a1", "n1", none, none, "t2", "v2", some "K=1", "t1", "v1", none, none, none, 0, "u"⟩]
          [⟨"t1", none⟩]).targets =
        (Database.mk
          [⟨"a1", "n1", none, none, "t1", "v1", none, "t1", "v1", none, none, none, 0, "u"⟩]
          [⟨"t1", none⟩]).targets
      ∧ (Database.mk
          [⟨"a1", "n1", none, none, "t2", "v2", some "K=1", "t1", "v1", none, none, none, 0, "u"⟩]
          [⟨"t1", none⟩]).apps =
        (Database.mk
          [⟨"a1", "n1", none, none, "t1", "v1", none, "t1", "v1", none, none, none, 0, "u"⟩]
          [⟨"t1", none⟩]).apps.map
          (fun r => if r.id == "a1" then updateEnvRow .production ⟨"t2", "v2", some "K=1"⟩ r else r)
      ∧ (∀ r : AppRow,
          (updateEnvRow .production ⟨"t2", "v2", some "K=1"⟩ r).id = r.id
          ∧ (updateEnvRow .production ⟨"t2", "v2", some "K=1"⟩ r).name = r.name
          ∧ (updateEnvRow .production ⟨"t2", "v2", some "K=1"⟩ r).version_control_url =
              r.version_control_url
          ∧ (updateEnvRow .production ⟨"t2", "v2", some "K=1"⟩ r).version_control_token =
              r.version_control_token
          ∧ (updateEnvRow .production ⟨"t2", "v2", some "K=1"⟩ r).cleanup_requested_at =
              r.cleanup_requested_at
          ∧ (updateEnvRow .production ⟨"t2", "v2", some "K=1"⟩ r).cleanup_requested_by =
              r.cleanup_requested_by
          ∧ (updateEnvRow .production ⟨"t2", "v2", some "K=1"⟩ r).created_at = r.created_at
          ∧ (updateEnvRow .production ⟨"t2", "v2", some "K=1"⟩ r).created_by = r.created_by)
      ∧ (Environment.production = .production → ∀ r : AppRow,
          (updateEnvRow .production ⟨"t2", "v2", some "K=1"⟩ r).production_target = "t2"
          ∧ (updateEnvRow .production ⟨"t2", "v2", some "K=1"⟩ r).production_version = "v2"
          ∧ (updateEnvRow .production ⟨"t2", "v2", some "K=1"⟩ r).production_vars = some "K=1"
          ∧ (updateEnvRow .production ⟨"t2", "v2", some "K=1"⟩ r).staging_target = r.staging_target
          ∧ (updateEnvRow .production ⟨"t2", "v2", some "K=1"⟩ r).staging_version =
              r.staging_version
          ∧ (updateEnvRow .production ⟨"t2", "v2", some "K=1"⟩ r).staging_vars = r.staging_vars)
      ∧ (Environment.production = .staging → ∀ r : AppRow,
          (updateEnvRow .production ⟨"t2", "v2", some "K=1"⟩ r).staging_target = "t2"
          ∧ (updateEnvRow .production ⟨"t2", "v2", some "K=1"⟩ r).staging_version = "v2"
          ∧ (updateEnvRow .production ⟨"t2", "v2", some "K=1"⟩ r).staging_vars = some "K=1"
          ∧ (updateEnvRow .production ⟨"t2", "v2", some "K=1"⟩ r).production_target =
              r.production_target
          ∧ (updateEnvRow .production ⟨"t2", "v2", some "K=1"⟩ r).production_version =
              r.production_version
          ∧ (updateEnvRow .production ⟨"t2", "v2", some "K=1"⟩ r).production_vars =
              r.production_vars)
      ∧ (environmentColumnPrefix .production = "production"
          ∨ environmentColumnPrefix .production = "staging")) :=
  ⟨rfl,
    envChanged_updates_exactly_env_columns
      (Database.mk
        [⟨"a1", "n1", none, none, "t1", "v1", none, "t1", "v1", none, none, none, 0, "u"⟩]
        [⟨"t1", none⟩])
      (Database.mk
        [⟨"a1", "n1", none, none, "t2", "v2", some "K=1", "t1", "v1", none, none, none, 0, "u"⟩]
        [⟨"t1", none⟩])
      "a1" .production ⟨"t2", "v2", some "K=1"⟩ rfl⟩

/-- C1: `Prepare` on a well-typed `DeploymentCreated` payload returns the dedupe
key built from the job discriminator and the project name; two invocations that
agree on the job-kind discriminator (fixed for this handler), the domain
identifier (app id and deployment number) and the disambiguating context
(project name) return byte-identical keys, and changing any one of the
identifier's app id, the identifier's deployment number or the project name
while the others are kept changes the key. -/
theorem prepare_dedupe_key_componentwise (r1 r2 : Request) :
    Prepare (.request r1) =
      .ok (.deploy { appID := r1.appID, deploymentNumber := r1.deploymentNumber },
        some (dedupeKey r1))
    ∧ (r1.appID = r2.appID → r1.deploymentNumber = r2.deploymentNumber →
        r1.projectName = r2.projectName → dedupeKey r1 = dedupeKey r2)
    ∧ (r1.appID ≠ r2.appID → r1.deploymentNumber = r2.deploymentNumber →
        r1.projectName = r2.projectName → dedupeKey r1 ≠ dedupeKey r2)
    ∧ (r1.appID = r2.appID → r1.deploymentNumber ≠ r2.deploymentNumber →
        r1.projectName = r2.projectName → dedupeKey r1 ≠ dedupeKey r2)
    ∧ (r1.appID = r2.appID → r1.deploymentNumber = r2.deploymentNumber →
        r1.projectName ≠ r2.projectName → dedupeKey r1 ≠ dedupeKey r2) := by
  refine ⟨rfl, ?_, ?_, ?_, ?_⟩
  · intro h1 h2 h3
    simp [dedupeKey, Data.discriminator, h1, h2, h3]
  · intro hne h2 h3 hkey
    have hd := congrArg String.data hkey
    rw [dedupeKey_data, dedupeKey_data, h2, h3] at hd
    have h5 := List.append_cancel_left hd
    have h6 := List.append_cancel_right h5
    exact hne (String.ext h6)
  · intro h1 hne h3 hkey
    have hd := congrArg String.data hkey
    rw [dedupeKey_data, dedupeKey_data, h1, h3] at hd
    have h5 := List.append_cancel_left
      (List.append_cancel_left (List.append_cancel_left hd))
    have h6 := List.append_cancel_right h5
    exact hne (natDecimal_inj _ _ h6)
  · intro h1 h2 hne hkey
    have hd := congrArg String.data hkey
    rw [dedupeKey_data, dedupeKey_data, h1, h2] at hd
    have h5 := List.append_cancel_left (List.append_cancel_left
      (List.append_cancel_left (List.append_cancel_left (List.append_cancel_left hd))))
    exact hne (String.ext h5)

theorem prepare_dedupe_key_componentwise_witness :
    (Prepare (.request ⟨"app-1", 1, "proj"⟩) =
      .ok (.deploy { appID := "app-1", deploymentNumber := 1 },
        some (dedupeKey ⟨"app-1", 1, "proj"⟩)))
    ∧ dedupeKey ⟨"app-1", 1, "proj"⟩ = dedupeKey ⟨"app-1", 1, "proj"⟩
    ∧ dedupeKey ⟨"app-1", 1, "proj"⟩ ≠ dedupeKey ⟨"app-2", 1, "proj"⟩
    ∧ dedupeKey ⟨"app-1", 1, "proj"⟩ ≠ dedupeKey ⟨"app-1", 2, "proj"⟩
    ∧ dedupeKey ⟨"app-1", 1, "proj"⟩ ≠ dedupeKey ⟨"app-1", 1, "other"⟩ :=
  ⟨(prepare_dedupe_key_componentwise ⟨"app-1", 1, "proj"⟩ ⟨"app-1", 1, "proj"⟩).1,
    (prepare_dedupe_key_componentwise ⟨"app-1", 1, "proj"⟩ ⟨"app-1", 1, "proj"⟩).2.1
      rfl rfl rfl,
    (prepare_dedupe_key_componentwise ⟨"app-1", 1, "proj"⟩ ⟨"app-2", 1, "proj"⟩).2.2.1
      (by decide) rfl rfl,
    (prepare_dedupe_key_componentwise ⟨"app-1", 1, "proj"⟩ ⟨"app-1", 2, "proj"⟩).2.2.2.1
      rfl (by decide) rfl,
    (prepare_dedupe_key_componentwise ⟨"app-1", 1, "proj"⟩ ⟨"app-1", 1, "other"⟩).2.2.2.2
      rfl rfl (by decide)⟩

end Seelf

